import Mathlib

/-!
Verification of the job-polling client in `src/telegram_nano_bot.py`
(class `NanoAPI` and the surrounding Telegram glue).

The embedding models the remote generation service by its parsed JSON
responses.  A create-task response (`POST {base}/generate`) is a
`GenResponse`; the outcome of each status call
(`GET {base}/record-info?taskId=...`) is a `StatusCall`: either `fail`
(the HTTP request or `resp.json()` raised, so an exception propagates)
or `ok d` where `d` is the value of `resp.json().get("data", {})`,
with optional fields as in the source.

Python effects are made explicit:
  * raising `ValueError` / `TimeoutError` / an unguarded `KeyError`
    becomes returning a distinguished constructor of `SubmitResult`
    resp. `JobResult`;
  * the number of status polls issued by `run_job` is returned
    alongside the result;
  * `_generate_task` returns the payload of the POST it issues together
    with its result, so "a network call was made with payload p" is
    observable.

The source hardcodes the poll interval to 4 seconds
(`await asyncio.sleep(4); waited += 4`).  The loop is embedded with the
interval as an explicit positive parameter so that the specification's
`pollIntervalSeconds` can be instantiated; `run_job` instantiates the
interval to 4 exactly as the source does.
-/

/-- The `response` object inside a status record:
`{response?: {resultImageUrl: string}}`.  `none` for a missing
`resultImageUrl` key. -/
structure RespObj where
  resultImageUrl : Option String
deriving DecidableEq

/-- The value of `resp.json().get("data", {})` in `NanoAPI._get_status`:
`{successFlag: 0|1|2|3, response?: {...}, errorMessage?: string}`, every
field optional (`{}` when the `data` key was absent). -/
structure StatusData where
  successFlag : Option Int
  response : Option RespObj
  errorMessage : Option String
deriving DecidableEq

/-- Outcome of one status-retrieval call.  `fail`: the `requests.get`
or `resp.json()` in `_get_status` raised (network error, timeout, JSON
parse error) — the exception propagates.  `ok d`: the call returned and
`d` is the extracted `data` object. -/
inductive StatusCall where
  | fail
  | ok (d : StatusData)
deriving DecidableEq

/-- The `data` object of a create-task response: `{data: {taskId: string}}`. -/
structure GenData where
  taskId : Option String
deriving DecidableEq

/-- Parsed JSON of a create-task response:
`{code: int, msg?: string, data: {taskId: string}}`, fields optional. -/
structure GenResponse where
  code : Option Int
  msg : Option String
  data : Option GenData
deriving DecidableEq

/-- The JSON body `_generate_task` sends with its POST. -/
structure GenPayload where
  prompt : String
  type_ : String
  numImages : Nat
  callBackUrl : String
  imageUrls : Option (List String)
deriving DecidableEq

/-- Result of `_generate_task`: the returned `taskId`, the
`raise ValueError(result.get("msg", "Unknown error"))` on a non-200
code, or the unguarded `result["data"]["taskId"]` lookup failing. -/
inductive SubmitResult where
  | ok (taskId : String)
  | valueError (msg : String)
  | keyError
deriving DecidableEq

/-- Outcome of `run_job`, together with Python's untyped escapes:
`submitError` = `ValueError` raised in `_generate_task`;
`submitKeyError` = `KeyError` on `result["data"]["taskId"]`;
`genError` = `ValueError` raised in the loop on flag 2/3;
`timeout` = `TimeoutError("Generation timeout")`;
`statusFail` = exception propagated out of `_get_status`;
`keyError` = `KeyError`/`TypeError` on `data["response"]["resultImageUrl"]`. -/
inductive JobResult where
  | ok (url : String)
  | submitError (msg : String)
  | submitKeyError
  | genError (msg : String)
  | timeout
  | statusFail
  | keyError
deriving DecidableEq

/-- The dict literal built at the top of `_generate_task`, including the
`if image_urls:` truthiness test: the `imageUrls` key is added only when
`image_urls` is a non-empty list (Python: `None` and `[]` are falsy). -/
def buildPayload (prompt type_ : String) (num_images : Nat)
    (image_urls : Option (List String)) : GenPayload :=
  { prompt := prompt
    type_ := type_
    numImages := num_images
    callBackUrl := "https://httpbin.org/post"
    imageUrls :=
      match image_urls with
      | none => none
      | some l => if l.isEmpty then none else some l }

/-- `NanoAPI._generate_task`: builds the payload, issues the POST (the
first component is the body of the call that was issued; the call is
made unconditionally, there is no validation), then checks
`result.get("code") != 200` and extracts `result["data"]["taskId"]`. -/
def generate_task (prompt type_ : String) (num_images : Nat)
    (image_urls : Option (List String)) (resp : GenResponse) :
    GenPayload × SubmitResult :=
  (buildPayload prompt type_ num_images image_urls,
    if resp.code == some 200 then
      match resp.data with
      | none => .keyError
      | some d =>
        match d.taskId with
        | none => .keyError
        | some t => .ok t
    else .valueError (resp.msg.getD "Unknown error"))

/-- The `while waited < max_wait` loop of `NanoAPI.run_job`.  `poll m`
is the outcome of the m-th status call (0-indexed); `n` counts the
polls issued so far and `waited` is the loop counter.  The source fixes
`interval = 4`; it is a parameter here (with the positivity needed for
termination) so the spec's `pollIntervalSeconds` is expressible.
Returns the outcome and the total number of polls issued. -/
def run_loop (poll : Nat → StatusCall) (interval : Nat)
    (hi : 0 < interval) (max_wait waited n : Nat) : JobResult × Nat :=
  if _h : waited < max_wait then
    match poll n with
    | .fail => (.statusFail, n + 1)
    | .ok d =>
      if d.successFlag == some 1 then
        match d.response with
        | none => (.keyError, n + 1)
        | some r =>
          match r.resultImageUrl with
          | none => (.keyError, n + 1)
          | some url => (.ok url, n + 1)
      else if d.successFlag == some 2 || d.successFlag == some 3 then
        (.genError (d.errorMessage.getD "Generation failed"), n + 1)
      else
        run_loop poll interval hi max_wait (waited + interval) (n + 1)
  else (.timeout, n)
termination_by max_wait - waited
decreasing_by omega

/-- `NanoAPI.run_job` with the poll interval generalized: submit via
`_generate_task` (propagating its errors with zero polls issued), then
run the poll loop from `waited = 0`. -/
def run_job_gen (gr : GenResponse) (poll : Nat → StatusCall)
    (prompt type_ : String) (image_urls : Option (List String))
    (interval : Nat) (hi : 0 < interval) (max_wait : Nat) :
    JobResult × Nat :=
  match (generate_task prompt type_ 1 image_urls gr).2 with
  | .valueError m => (.submitError m, 0)
  | .keyError => (.submitKeyError, 0)
  | .ok _ => run_loop poll interval hi max_wait 0 0

/-- `NanoAPI.run_job` as in the source: interval fixed to 4
(`await asyncio.sleep(4); waited += 4`), `num_images` left at its
default 1. -/
def run_job (gr : GenResponse) (poll : Nat → StatusCall)
    (prompt type_ : String) (image_urls : Option (List String))
    (max_wait : Nat) : JobResult × Nat :=
  run_job_gen gr poll prompt type_ image_urls 4 (by decide) max_wait

/-- A status call that the loop treats as Pending: the call returned
and the flag is neither 1 nor 2 nor 3. -/
def StatusCall.pendingOk : StatusCall → Bool
  | .fail => false
  | .ok d =>
    !(d.successFlag == some 1) && !(d.successFlag == some 2) &&
      !(d.successFlag == some 3)

/-- A status call carrying a terminal flag (1, 2 or 3). -/
def StatusCall.isTerminal : StatusCall → Bool
  | .fail => false
  | .ok d =>
    d.successFlag == some 1 || d.successFlag == some 2 ||
      d.successFlag == some 3

/-- Status of a task snapshot, per the spec's enum (the loop in the
source distinguishes exactly these three cases). -/
inductive TaskStatus where
  | pending
  | succeeded
  | failed
deriving DecidableEq

/-- A poll snapshot: the status together with the fields the loop in
`run_job` extracts for it. -/
structure Snapshot where
  status : TaskStatus
  resultUrl : Option String
  errorMessage : Option String
deriving DecidableEq

/-- The flag-to-status classification performed by the loop body of
`run_job` (lines 92-96): 1 → succeeded with the extracted
`resultImageUrl`; 2 or 3 → failed with `errorMessage` defaulted to
"Generation failed"; anything else → pending. -/
def classifyStatus (d : StatusData) : Snapshot :=
  if d.successFlag == some 1 then
    ⟨.succeeded, d.response.bind (fun r => r.resultImageUrl), none⟩
  else if d.successFlag == some 2 || d.successFlag == some 3 then
    ⟨.failed, none, some (d.errorMessage.getD "Generation failed")⟩
  else
    ⟨.pending, none, none⟩

/-- One poll against the remote task record `s` (= the `data` object
the service stores for the task): `_get_status` is an HTTP GET, so it
returns the record's snapshot and leaves the record unchanged. -/
def pollOnce (s : StatusData) : Snapshot × StatusData :=
  (classifyStatus s, s)

/-- Two polls in a row, threading the remote record through. -/
def pollTwice (s : StatusData) : Snapshot × Snapshot :=
  let (a, s1) := pollOnce s
  let (b, _) := pollOnce s1
  (a, b)

/-- The replied-to Telegram message as the smart handler sees it:
`photo` is the (possibly empty) list of photo sizes, each represented
by its resolved `file_path` URL; `photo[-1]` is the last element. -/
structure ReplyMsg where
  photo : List String
deriving DecidableEq

/-- An incoming Telegram message: optional text and optional
replied-to message. -/
structure Msg where
  text : Option String
  reply_to_message : Option ReplyMsg
deriving DecidableEq

/-- What the smart handler dispatches to: nothing, a text-to-image
generation, or an image-to-image edit with the `image_urls` list it
passes to `run_job`. -/
inductive BotAction where
  | noAction
  | textToImage (prompt : String)
  | imageToImage (prompt : String) (image_urls : List String)
deriving DecidableEq

/-- Python's `str.strip()` with no argument: drop whitespace from both
ends of the string. -/
def pyStrip (s : String) : String :=
  String.mk
    (((s.data.dropWhile Char.isWhitespace).reverse.dropWhile
        Char.isWhitespace).reverse)

/-- Python's `s.startswith(c)` for a one-character argument: the first
character of `s` equals `c` (false on the empty string). -/
def pyStartsWith (s : String) (c : Char) : Bool :=
  match s.data with
  | [] => false
  | a :: _ => a == c

/-- `smart_handler` composed with the dispatch in `image_to_image` /
`text_to_image`: return on no message, falsy text (`None` or empty) or
a leading "/"; strip the text; if replying to a message with a
non-empty photo list, edit using the last (largest) photo's URL as the
single source image, else generate from text. -/
def smart_handler (m : Option Msg) : BotAction :=
  match m with
  | none => .noAction
  | some msg =>
    match msg.text with
    | none => .noAction
    | some t =>
      if t = "" then .noAction
      else if pyStartsWith t '/' then .noAction
      else
        let prompt := pyStrip t
        match msg.reply_to_message with
        | none => .textToImage prompt
        | some r =>
          match r.photo.getLast? with
          | none => .textToImage prompt
          | some u => .imageToImage prompt [u]

/-- Ceiling-division step: removing one poll interval from a positive
remaining budget lowers the ceiling poll count by one. -/
theorem ceil_div_step (i a : Nat) (hi : 0 < i) (ha : 0 < a) :
    (a + i - 1) / i = (a - i + i - 1) / i + 1 := by
  have h1 : i ≤ a + i - 1 := by omega
  rw [Nat.div_eq_sub_div hi h1]
  have h2 : a + i - 1 - i = a - 1 := by omega
  rw [h2]
  by_cases hc : i ≤ a
  · have h3 : a - i + i - 1 = a - 1 := by omega
    rw [h3]
  · have h3 : a - i + i - 1 = i - 1 := by omega
    rw [h3, Nat.div_eq_of_lt (by omega), Nat.div_eq_of_lt (by omega)]

/-- If every poll reports a non-terminal flag, the loop times out after
exactly the ceiling of the remaining budget over the interval, counting
from `n` polls already issued. -/
theorem run_loop_pending (poll : Nat → StatusCall) (i : Nat) (hi : 0 < i)
    (hp : ∀ m, (poll m).pendingOk = true) :
    ∀ d W w n, W - w ≤ d →
      run_loop poll i hi W w n = (.timeout, n + (W - w + i - 1) / i) := by
  intro d
  induction d with
  | zero =>
    intro W w n hd
    rw [run_loop, dif_neg (by omega)]
    have h0 : W - w = 0 := by omega
    rw [h0, Nat.div_eq_of_lt (by omega), Nat.add_zero]
  | succ d ih =>
    intro W w n hd
    by_cases h : w < W
    · rw [run_loop, dif_pos h]
      have hpn := hp n
      cases hq : poll n with
      | fail => rw [hq] at hpn; simp [StatusCall.pendingOk] at hpn
      | ok dd =>
        rw [hq] at hpn
        simp only [StatusCall.pendingOk, Bool.and_eq_true,
          Bool.not_eq_true'] at hpn
        obtain ⟨⟨h1, h2⟩, h3⟩ := hpn
        simp only [h1, h2, h3, Bool.false_eq_true, if_false, Bool.or_self]
        rw [ih W (w + i) (n + 1) (by omega)]
        have hsub : W - (w + i) = W - w - i := by omega
        rw [hsub]
        have hstep := ceil_div_step i (W - w) hi (by omega)
        rw [hstep]
        rw [Prod.mk.injEq]
        exact ⟨rfl, by omega⟩
    · rw [run_loop, dif_neg h]
      have h0 : W - w = 0 := by omega
      rw [h0, Nat.div_eq_of_lt (by omega), Nat.add_zero]

/-- Once the poll at index `n + k` carries a terminal flag, the loop
issues at most `n + k + 1` polls in total: it never polls past the
first terminal answer. -/
theorem run_loop_stop (poll : Nat → StatusCall) (i : Nat) (hi : 0 < i) :
    ∀ k W w n, (poll (n + k)).isTerminal = true →
      (run_loop poll i hi W w n).2 ≤ n + k + 1 := by
  intro k
  induction k with
  | zero =>
    intro W w n ht
    rw [Nat.add_zero] at ht
    rw [run_loop]
    split
    · cases hq : poll n with
      | fail => simp
      | ok dd =>
        rw [hq] at ht
        simp only [StatusCall.isTerminal, Bool.or_eq_true] at ht
        by_cases b1 : (dd.successFlag == some 1) = true
        · simp only [b1, if_true]
          rcases hr : dd.response with _ | r
          · simp
          · rcases hu : r.resultImageUrl with _ | u <;> simp [hu]
        · by_cases b2 : (dd.successFlag == some 2) = true
          · simp [b1, b2]
          · by_cases b3 : (dd.successFlag == some 3) = true
            · simp [b1, b2, b3]
            · simp [b1, b2, b3] at ht
    · simp
  | succ k ih =>
    intro W w n ht
    rw [run_loop]
    split
    · cases hq : poll n with
      | fail => simp
      | ok dd =>
        by_cases b1 : (dd.successFlag == some 1) = true
        · simp only [b1, if_true]
          rcases hr : dd.response with _ | r
          · simp
          · rcases hu : r.resultImageUrl with _ | u <;> simp [hu]
        · by_cases b2 : (dd.successFlag == some 2) = true
          · simp [b1, b2]
          · by_cases b3 : (dd.successFlag == some 3) = true
            · simp [b1, b2, b3]
            · simp only [b1, b2, b3, Bool.false_eq_true, if_false,
                Bool.or_self]
              have ht2 : (poll ((n + 1) + k)).isTerminal = true := by
                have he : (n + 1) + k = n + (k + 1) := by omega
                rw [he]; exact ht
              have hle := ih W (w + i) (n + 1) ht2
              omega
    · simp; omega

/-- When `_generate_task` returns a task id, `run_job_gen` is the poll
loop started at `waited = 0` with no polls issued yet. -/
theorem run_job_gen_submit_ok (gr : GenResponse) (poll : Nat → StatusCall)
    (prompt type_ : String) (image_urls : Option (List String))
    (i : Nat) (hi : 0 < i) (W : Nat) (tid : String)
    (hsub : (generate_task prompt type_ 1 image_urls gr).2 = .ok tid) :
    run_job_gen gr poll prompt type_ image_urls i hi W
      = run_loop poll i hi W 0 0 := by
  simp only [run_job_gen, hsub]

/-- C1: if submission succeeds and every status poll reports a pending
flag (`successFlag` neither 1 nor 2 nor 3), `run_job_gen` fails with
`TimeoutError` after exactly `⌈maxWaitSeconds / pollIntervalSeconds⌉ =
(W + i - 1) / i` poll calls — one per loop pass at elapsed
0, i, 2i, ... while elapsed < W.  The source fixes i = 4; the witness
instantiates W = 10, i = 5 and observes exactly 2 polls. -/
theorem claim1_timeout_poll_count (gr : GenResponse)
    (poll : Nat → StatusCall) (prompt type_ : String)
    (imgs : Option (List String)) (tid : String) (i W : Nat)
    (hi : 0 < i)
    (hsub : (generate_task prompt type_ 1 imgs gr).2 = .ok tid)
    (hp : ∀ m, (poll m).pendingOk = true) :
    run_job_gen gr poll prompt type_ imgs i hi W
      = (.timeout, (W + i - 1) / i) := by
  rw [run_job_gen_submit_ok gr poll prompt type_ imgs i hi W tid hsub]
  have h := run_loop_pending poll i hi hp W W 0 0 (by omega)
  simpa using h

/-- Witness for C1: always-pending stub, W = 10, i = 5: TimeoutError
after exactly 2 polls. -/
theorem claim1_witness :
    run_job_gen ⟨some 200, none, some ⟨some "t"⟩⟩
        (fun _ => .ok ⟨some 0, none, none⟩) "p" "TEXTTOIAMGE" none
        5 (by decide) 10
      = (.timeout, 2) :=
  claim1_timeout_poll_count ⟨some 200, none, some ⟨some "t"⟩⟩
    (fun _ => .ok ⟨some 0, none, none⟩) "p" "TEXTTOIAMGE" none "t" 5 10
    (by decide) (by decide) (fun _ => rfl)

/-- C2: if submission succeeds and the first status poll reports
`successFlag = 1` with a `resultImageUrl` in its `response` payload,
`run_job` returns that URL after exactly one poll call (given
`max_wait > 0`). -/
theorem claim2_first_poll_success (gr : GenResponse)
    (poll : Nat → StatusCall) (prompt type_ : String)
    (imgs : Option (List String)) (tid u : String)
    (em : Option String) (W : Nat)
    (hsub : (generate_task prompt type_ 1 imgs gr).2 = .ok tid)
    (hW : 0 < W)
    (hpoll : poll 0 = .ok ⟨some 1, some ⟨some u⟩, em⟩) :
    run_job gr poll prompt type_ imgs W = (.ok u, 1) := by
  rw [run_job, run_job_gen_submit_ok gr poll prompt type_ imgs 4
    (by decide) W tid hsub]
  rw [run_loop, dif_pos hW, hpoll]
  simp

/-- Witness for C2: flag-1 stub returning "u": result "u", one poll. -/
theorem claim2_witness :
    run_job ⟨some 200, none, some ⟨some "t"⟩⟩
        (fun _ => .ok ⟨some 1, some ⟨some "u"⟩, none⟩) "p" "TEXTTOIAMGE"
        none 240
      = (.ok "u", 1) :=
  claim2_first_poll_success ⟨some 200, none, some ⟨some "t"⟩⟩
    (fun _ => .ok ⟨some 1, some ⟨some "u"⟩, none⟩) "p" "TEXTTOIAMGE"
    none "t" "u" none 240 (by decide) (by decide) rfl

/-- C3: if submission succeeds and the first status poll reports
`successFlag = 2` or `3`, `run_job` raises `ValueError` (the
GenerationError) carrying the poll's `errorMessage`, or "Generation
failed" when that field is absent, after exactly one poll call (given
`max_wait > 0`). -/
theorem claim3_first_poll_failure (gr : GenResponse)
    (poll : Nat → StatusCall) (prompt type_ : String)
    (imgs : Option (List String)) (tid : String) (f : Option Int)
    (r : Option RespObj) (em : Option String) (W : Nat)
    (hsub : (generate_task prompt type_ 1 imgs gr).2 = .ok tid)
    (hW : 0 < W)
    (hf : f = some 2 ∨ f = some 3)
    (hpoll : poll 0 = .ok ⟨f, r, em⟩) :
    run_job gr poll prompt type_ imgs W
      = (.genError (em.getD "Generation failed"), 1) := by
  rw [run_job, run_job_gen_submit_ok gr poll prompt type_ imgs 4
    (by decide) W tid hsub]
  rw [run_loop, dif_pos hW, hpoll]
  rcases hf with rfl | rfl <;> simp

/-- Witness for C3: flag-2 stub with errorMessage "boom": GenerationError
"boom", one poll. -/
theorem claim3_witness :
    run_job ⟨some 200, none, some ⟨some "t"⟩⟩
        (fun _ => .ok ⟨some 2, none, some "boom"⟩) "p" "TEXTTOIAMGE"
        none 240
      = (.genError "boom", 1) :=
  claim3_first_poll_failure ⟨some 200, none, some ⟨some "t"⟩⟩
    (fun _ => .ok ⟨some 2, none, some "boom"⟩) "p" "TEXTTOIAMGE"
    none "t" (some 2) none (some "boom") 240 (by decide) (by decide)
    (Or.inl rfl) rfl

/-- C4: `_generate_task` raises `ValueError` (the SubmissionError) iff
the create-task response's `code` is not 200; the error carries the
service `msg`, defaulted to "Unknown error" when absent; and on such a
failure `run_job` propagates it with zero poll calls issued. -/
theorem claim4_submit_error_iff (gr : GenResponse)
    (poll : Nat → StatusCall) (prompt type_ : String)
    (imgs : Option (List String)) (W : Nat) :
    ((∃ m, (generate_task prompt type_ 1 imgs gr).2 = .valueError m)
        ↔ ¬ gr.code = some 200)
      ∧ (¬ gr.code = some 200 →
          (generate_task prompt type_ 1 imgs gr).2
              = .valueError (gr.msg.getD "Unknown error")
            ∧ run_job gr poll prompt type_ imgs W
              = (.submitError (gr.msg.getD "Unknown error"), 0)) := by
  by_cases hc : gr.code = some 200
  · refine ⟨⟨?_, fun h => absurd hc h⟩, fun h => absurd hc h⟩
    rintro ⟨m, hm⟩
    rcases hdata : gr.data with _ | d
    · simp [generate_task, hc, hdata] at hm
    · rcases htid : d.taskId with _ | t <;>
        simp [generate_task, hc, hdata, htid] at hm
  · have hval : (generate_task prompt type_ 1 imgs gr).2
        = .valueError (gr.msg.getD "Unknown error") := by
      simp [generate_task, hc]
    refine ⟨⟨fun _ => hc, fun _ => ⟨_, hval⟩⟩, fun _ => ⟨hval, ?_⟩⟩
    rw [run_job, run_job_gen, hval]

/-- Witness for C4: stub response code 500 with msg "bad prompt":
SubmissionError "bad prompt" and zero polls. -/
theorem claim4_witness :
    run_job ⟨some 500, some "bad prompt", none⟩ (fun _ => .fail) "p"
        "TEXTTOIAMGE" none 240
      = (.submitError "bad prompt", 0) :=
  ((claim4_submit_error_iff ⟨some 500, some "bad prompt", none⟩
      (fun _ => .fail) "p" "TEXTTOIAMGE" none 240).2 (by decide)).2

/-- C5, counterexample: with mode IMAGETOIAMGE and an *empty* source
image list, `_generate_task` does not fail with a validation error
before the network call — it issues the POST (with the `imageUrls` key
simply omitted) and, on a code-200 response, returns the task id. -/
theorem claim5_counterexample :
    generate_task "p" "IMAGETOIAMGE" 1 (some [])
        ⟨some 200, none, some ⟨some "t"⟩⟩
      = (⟨"p", "IMAGETOIAMGE", 1, "https://httpbin.org/post", none⟩,
          .ok "t") := by
  decide

/-- C5, amended: `_generate_task` performs no validation of the source
image list: an empty list is treated exactly like an absent one — the
`imageUrls` key is dropped from the payload, the create-task call is
still issued, and the outcome is decided solely by the service
response. -/
theorem claim5_empty_images_like_absent (prompt : String) (n : Nat)
    (gr : GenResponse) :
    generate_task prompt "IMAGETOIAMGE" n (some []) gr
      = generate_task prompt "IMAGETOIAMGE" n none gr := rfl

/-- C6, counterexample: a status call failing at the network/parse
level does not degrade into the timeout outcome: with a stub whose
first poll raises, `run_job` terminates at once with the propagated
failure, not with `TimeoutError`. -/
theorem claim6_counterexample :
    (run_job ⟨some 200, none, some ⟨some "t"⟩⟩ (fun _ => .fail) "p"
          "TEXTTOIAMGE" none 240).1
        = .statusFail
      ∧ (run_job ⟨some 200, none, some ⟨some "t"⟩⟩ (fun _ => .fail) "p"
          "TEXTTOIAMGE" none 240).1
        ≠ .timeout := by
  constructor <;>
    simp [run_job, run_job_gen, generate_task, buildPayload, run_loop]

/-- C6, amended: no distinct StatusError is surfaced, but the two
failure modes differ: an exception from `_get_status` (network error or
JSON parse error) propagates out of `run_job` immediately as an untyped
failure, while a response that parses but lacks the expected
`data`/`successFlag` fields is treated as a transient Pending and
degrades into `TimeoutError` once the wait budget is exhausted. -/
theorem claim6_amended (gr : GenResponse) (p1 p2 : Nat → StatusCall)
    (prompt type_ : String) (imgs : Option (List String)) (tid : String)
    (W : Nat)
    (hsub : (generate_task prompt type_ 1 imgs gr).2 = .ok tid)
    (hW : 0 < W)
    (h1 : p1 0 = .fail)
    (h2 : ∀ m, (p2 m).pendingOk = true) :
    run_job gr p1 prompt type_ imgs W = (.statusFail, 1)
      ∧ (run_job gr p2 prompt type_ imgs W).1 = .timeout := by
  constructor
  · rw [run_job, run_job_gen_submit_ok gr p1 prompt type_ imgs 4
      (by decide) W tid hsub]
    rw [run_loop, dif_pos hW, h1]
  · rw [run_job, run_job_gen_submit_ok gr p2 prompt type_ imgs 4
      (by decide) W tid hsub]
    rw [run_loop_pending p2 4 (by decide) h2 W W 0 0 (by omega)]

/-- Witness for C6 (amended): a first-poll network failure yields the
propagated error after one poll; an all-pending (empty `data`) stub
times out. -/
theorem claim6_witness :
    run_job ⟨some 200, none, some ⟨some "t"⟩⟩ (fun _ => .fail) "p"
        "TEXTTOIAMGE" none 240
      = (.statusFail, 1)
      ∧ (run_job ⟨some 200, none, some ⟨some "t"⟩⟩
          (fun _ => .ok ⟨none, none, none⟩) "p" "TEXTTOIAMGE" none
          240).1
        = .timeout :=
  claim6_amended ⟨some 200, none, some ⟨some "t"⟩⟩ (fun _ => .fail)
    (fun _ => .ok ⟨none, none, none⟩) "p" "TEXTTOIAMGE" none "t" 240
    (by decide) (by decide) rfl (fun _ => rfl)

/-- C7: once a poll carries a terminal flag (1, 2 or 3), `run_job`
never issues a further status call: if the poll at index k is terminal,
the total number of polls issued is at most k + 1, whatever the flags
before or after it. -/
theorem claim7_no_poll_after_terminal (gr : GenResponse)
    (poll : Nat → StatusCall) (prompt type_ : String)
    (imgs : Option (List String)) (tid : String) (k W : Nat)
    (hsub : (generate_task prompt type_ 1 imgs gr).2 = .ok tid)
    (ht : (poll k).isTerminal = true) :
    (run_job gr poll prompt type_ imgs W).2 ≤ k + 1 := by
  rw [run_job, run_job_gen_submit_ok gr poll prompt type_ imgs 4
    (by decide) W tid hsub]
  have h := run_loop_stop poll 4 (by decide) k W 0 0
    (by rw [Nat.zero_add]; exact ht)
  simpa using h

/-- Witness for C7: a stub terminal from the very first poll: at most
one poll is issued. -/
theorem claim7_witness :
    (run_job ⟨some 200, none, some ⟨some "t"⟩⟩
        (fun _ => .ok ⟨some 2, none, none⟩) "p" "TEXTTOIAMGE" none
        240).2
      ≤ 1 :=
  claim7_no_poll_after_terminal ⟨some 200, none, some ⟨some "t"⟩⟩
    (fun _ => .ok ⟨some 2, none, none⟩) "p" "TEXTTOIAMGE" none "t" 0
    240 (by decide) rfl

/-- C8: polling is a read-only function of the remote task record:
two `pollOnce` calls in a row against an unchanged record yield
snapshots with identical status, resultUrl and errorMessage. -/
theorem claim8_poll_idempotent (s : StatusData) :
    (pollTwice s).1 = (pollTwice s).2
      ∧ (pollTwice s).1.status = (pollTwice s).2.status
      ∧ (pollTwice s).1.resultUrl = (pollTwice s).2.resultUrl
      ∧ (pollTwice s).1.errorMessage = (pollTwice s).2.errorMessage :=
  ⟨rfl, rfl, rfl, rfl⟩

/-- C9: if the first poll reports `successFlag = 1` but its payload
lacks the `response` object or the `resultImageUrl` field, `run_job`
fails with the unguarded dictionary lookup (`KeyError`), which is none
of the typed outcomes (SubmissionError, GenerationError,
TimeoutError). -/
theorem claim9_flag1_missing_url (gr : GenResponse)
    (poll : Nat → StatusCall) (prompt type_ : String)
    (imgs : Option (List String)) (tid : String) (r : Option RespObj)
    (em : Option String) (W : Nat)
    (hsub : (generate_task prompt type_ 1 imgs gr).2 = .ok tid)
    (hW : 0 < W)
    (hr : r = none ∨ r = some ⟨none⟩)
    (hpoll : poll 0 = .ok ⟨some 1, r, em⟩) :
    run_job gr poll prompt type_ imgs W = (.keyError, 1)
      ∧ (∀ m, (run_job gr poll prompt type_ imgs W).1 ≠ .submitError m)
      ∧ (∀ m, (run_job gr poll prompt type_ imgs W).1 ≠ .genError m)
      ∧ (run_job gr poll prompt type_ imgs W).1 ≠ .timeout := by
  have hmain : run_job gr poll prompt type_ imgs W = (.keyError, 1) := by
    rw [run_job, run_job_gen_submit_ok gr poll prompt type_ imgs 4
      (by decide) W tid hsub]
    rw [run_loop, dif_pos hW, hpoll]
    rcases hr with rfl | rfl <;> simp
  exact ⟨hmain, fun m => by simp [hmain], fun m => by simp [hmain],
    by simp [hmain]⟩

/-- Witness for C9: flag-1 stub with no `response` object: KeyError
after one poll. -/
theorem claim9_witness :
    run_job ⟨some 200, none, some ⟨some "t"⟩⟩
        (fun _ => .ok ⟨some 1, none, none⟩) "p" "TEXTTOIAMGE" none 240
      = (.keyError, 1) :=
  (claim9_flag1_missing_url ⟨some 200, none, some ⟨some "t"⟩⟩
    (fun _ => .ok ⟨some 1, none, none⟩) "p" "TEXTTOIAMGE" none "t"
    none none 240 (by decide) (by decide) (Or.inl rfl) rfl).1

/-- C10: for a non-empty non-command text message, the smart handler
selects image-to-image with the replied-to photo's URL as the single
source image exactly when the message replies to a message with a
photo, and text-to-image otherwise; the prompt is the stripped text in
both cases. -/
theorem claim10_smart_handler_mode (msg : Msg) (t : String)
    (h1 : msg.text = some t) (h2 : ¬ t = "")
    (h3 : pyStartsWith t '/' = false) :
    (∀ r, msg.reply_to_message = some r →
        ∀ u, r.photo.getLast? = some u →
          smart_handler (some msg) = .imageToImage (pyStrip t) [u])
      ∧ (msg.reply_to_message = none →
          smart_handler (some msg) = .textToImage (pyStrip t))
      ∧ (∀ r, msg.reply_to_message = some r → r.photo = [] →
          smart_handler (some msg) = .textToImage (pyStrip t)) := by
  refine ⟨?_, ?_, ?_⟩
  · intro r hrep u hu
    simp [smart_handler, h1, h2, h3, hrep, hu]
  · intro hrep
    simp [smart_handler, h1, h2, h3, hrep]
  · intro r hrep hph
    simp [smart_handler, h1, h2, h3, hrep, hph]

/-- Witness for C10: replying to a two-photo message with
" hi there " selects image-to-image on the last photo's URL with the
stripped prompt. -/
theorem claim10_witness :
    smart_handler (some ⟨some " hi there ", some ⟨["a", "b"]⟩⟩)
      = .imageToImage "hi there" ["b"] :=
  (claim10_smart_handler_mode ⟨some " hi there ", some ⟨["a", "b"]⟩⟩
    " hi there " rfl (by decide) (by decide)).1 ⟨["a", "b"]⟩ rfl "b" rfl
